import Mathlib

/-!
Shallow embedding of the `tonic-dynamic-channel` repository.

The repository contains two iterations of the reconciliation engine:
`src/lib.rs` (the crate root: status enum with `Stopped`, sink-closure
handling inside the send loops, no endpoint-count register) and
`src/dynamic_channel.rs` (status enum without `Stopped`, an
endpoint-count register and `get_health`, sink-closure checked at the
top of the loop).  Both are embedded below, the first under the `Lib`
prefix and the second under the `DC` prefix.  The external collaborator
crates (`url`, `http`, `tonic`) are modelled at their interface
boundary, as the spec describes them.
-/

namespace TonicDynamicChannel

/-- An IP address (`std::net::IpAddr`): either a v4 address given by its
four octets, or a v6 address given by its 128-bit value. -/
inductive IpAddr
  | v4 (a b c d : Nat)
  | v6 (value : Nat)
deriving DecidableEq

/-- Modelled from the spec: the host part of a parsed URL as exposed by
the external `url` crate (`url::Host`): a domain name or a literal IP. -/
inductive Host
  | domain (s : String)
  | ipv4 (a b c d : Nat)
  | ipv6 (value : Nat)
deriving DecidableEq

/-- True exactly on the literal-IP host variants. -/
def Host.isIp : Host → Bool
  | .domain _ => false
  | .ipv4 _ _ _ _ => true
  | .ipv6 _ => true

/-- The IP address carried by a literal-IP host, if any. -/
def Host.ipOf : Host → Option IpAddr
  | .domain _ => none
  | .ipv4 a b c d => some (IpAddr.v4 a b c d)
  | .ipv6 v => some (IpAddr.v6 v)

/-- The host corresponding to an IP address (`url::Host::Ipv4/Ipv6`). -/
def Host.ofIp : IpAddr → Host
  | .v4 a b c d => Host.ipv4 a b c d
  | .v6 v => Host.ipv6 v

/-- Modelled from the spec: a parsed URL of the external `url` crate,
at the interface the repository uses: its `host()`, its
`cannot_be_a_base()` flag, whether `tonic::transport::Uri::from_str` on
its text succeeds, and an opaque remainder (scheme, port, path) that
host substitution leaves untouched. -/
structure Url where
  host : Option Host
  cannot_be_a_base : Bool
  parses_as_uri : Bool
  rest : String
deriving DecidableEq

/-- Modelled from the spec: `url::Url::set_ip_host`, which replaces the
URL's host by the literal IP.  The crate's failure case (the URL cannot
be a base) is ruled out at template construction time, so the model is
total. -/
def Url.set_ip_host (u : Url) (ip : IpAddr) : Url :=
  { u with host := some (Host.ofIp ip) }

/-- Modelled from the spec: `tonic::transport::Uri::from_str` applied to
the URL's text; success is recorded in the URL model itself. -/
def Uri.from_str (u : Url) : Option Url :=
  if u.parses_as_uri then some u else none

/-- Durations (`std::time::Duration`), as an abstract number of
nanoseconds. -/
abbrev Duration := Nat

/-- Construction-time errors of `EndpointTemplate::new`
(`src/endpoint_template.rs`). -/
inductive Error
  | HostMissing
  | AlreadyIpAddress
  | Inconvertible
deriving DecidableEq

/-- The immutable endpoint template (`src/endpoint_template.rs`,
`struct EndpointTemplate`): a validated URL plus every transport-tuning
option, all unset at construction. -/
structure EndpointTemplate where
  url : Url
  origin : Option Url
  user_agent : Option String
  concurrency_limit : Option Nat
  rate_limit : Option (Nat × Duration)
  timeout : Option Duration
  buffer_size : Option Nat
  init_stream_window_size : Option Nat
  init_connection_window_size : Option Nat
  tcp_keepalive : Option Duration
  tcp_nodelay : Option Bool
  http2_keep_alive_interval : Option Duration
  http2_keep_alive_timeout : Option Duration
  http2_keep_alive_while_idle : Option Bool
  connect_timeout : Option Duration
  http2_adaptive_window : Option Bool
deriving DecidableEq

/-- `EndpointTemplate::new` (`src/endpoint_template.rs` lines 30-76):
check that the URL has a host and that it is a domain (else
`HostMissing` / `AlreadyIpAddress`), then that the URL can be a base and
round-trips through the transport URI type (else `Inconvertible`), and
return the template with all options unset. -/
def EndpointTemplate.new (url : Url) : Except Error EndpointTemplate :=
  match url.host with
  | some host =>
    match host with
    | Host.domain _ =>
      if url.cannot_be_a_base then
        Except.error Error.Inconvertible
      else if (Uri.from_str url).isNone then
        Except.error Error.Inconvertible
      else
        Except.ok
          { url := url
            origin := none
            user_agent := none
            timeout := none
            concurrency_limit := none
            rate_limit := none
            buffer_size := none
            init_stream_window_size := none
            init_connection_window_size := none
            tcp_keepalive := none
            tcp_nodelay := none
            http2_keep_alive_interval := none
            http2_keep_alive_timeout := none
            http2_keep_alive_while_idle := none
            connect_timeout := none
            http2_adaptive_window := none }
    | _ => Except.error Error.AlreadyIpAddress
  | none => Except.error Error.HostMissing

/-- A connection descriptor (`tonic::transport::Endpoint`), modelled at
the interface the repository uses: the URI it was created from plus one
field per setter the template may apply; unset fields are the external
crate's defaults, abstracted as `none`. -/
structure Endpoint where
  uri : Url
  origin : Option Url := none
  user_agent : Option String := none
  timeout : Option Duration := none
  connect_timeout : Option Duration := none
  tcp_keepalive : Option Duration := none
  concurrency_limit : Option Nat := none
  rate_limit : Option (Nat × Duration) := none
  init_stream_window_size : Option Nat := none
  init_connection_window_size : Option Nat := none
  buffer_size : Option Nat := none
  tcp_nodelay : Option Bool := none
  http2_keep_alive_interval : Option Duration := none
  http2_keep_alive_timeout : Option Duration := none
  http2_keep_alive_while_idle : Option Bool := none
  http2_adaptive_window : Option Bool := none
deriving DecidableEq

/-- `EndpointTemplate::build_uri` (`src/endpoint_template.rs` lines
258-264): substitute the IP for the URL's host and convert to the
transport URI type (both unwraps are guarded by the constructor's
checks, so the model is total). -/
def EndpointTemplate.build_uri (t : EndpointTemplate) (ip_addr : IpAddr) : Url :=
  (t.url).set_ip_host ip_addr

/-- `EndpointTemplate::build` (`src/endpoint_template.rs` lines
188-250): start from the substituted URI and apply each configured
option in the source's fixed order. -/
def EndpointTemplate.build (t : EndpointTemplate) (ip_address : IpAddr) : Endpoint :=
  let endpoint : Endpoint := { uri := t.build_uri ip_address }
  let endpoint := match t.origin with
    | some origin => { endpoint with origin := some origin }
    | none => endpoint
  let endpoint := match t.user_agent with
    | some ua => { endpoint with user_agent := some ua }
    | none => endpoint
  let endpoint := match t.timeout with
    | some d => { endpoint with timeout := some d }
    | none => endpoint
  let endpoint := match t.connect_timeout with
    | some d => { endpoint with connect_timeout := some d }
    | none => endpoint
  let endpoint := { endpoint with tcp_keepalive := t.tcp_keepalive }
  let endpoint := match t.concurrency_limit with
    | some l => { endpoint with concurrency_limit := some l }
    | none => endpoint
  let endpoint := match t.rate_limit with
    | some rl => { endpoint with rate_limit := some rl }
    | none => endpoint
  let endpoint := match t.init_stream_window_size with
    | some sz => { endpoint with init_stream_window_size := some sz }
    | none => endpoint
  let endpoint := match t.init_connection_window_size with
    | some sz => { endpoint with init_connection_window_size := some sz }
    | none => endpoint
  let endpoint := { endpoint with buffer_size := t.buffer_size }
  let endpoint := match t.tcp_nodelay with
    | some b => { endpoint with tcp_nodelay := some b }
    | none => endpoint
  let endpoint := match t.http2_keep_alive_interval with
    | some d => { endpoint with http2_keep_alive_interval := some d }
    | none => endpoint
  let endpoint := match t.http2_keep_alive_timeout with
    | some d => { endpoint with http2_keep_alive_timeout := some d }
    | none => endpoint
  let endpoint := match t.http2_keep_alive_while_idle with
    | some b => { endpoint with http2_keep_alive_while_idle := some b }
    | none => endpoint
  let endpoint := match t.http2_adaptive_window with
    | some b => { endpoint with http2_adaptive_window := some b }
    | none => endpoint
  endpoint

/-- `EndpointTemplate::domain` (`src/endpoint_template.rs` lines
252-256); the source unwraps, the model returns `none` where the source
would panic. -/
def EndpointTemplate.domain (t : EndpointTemplate) : Option String :=
  match t.url.host with
  | some (Host.domain d) => some d
  | _ => none

/-- A change event sent to the sink (`tower::discover::Change`). -/
inductive Change
  | Insert (key : IpAddr) (endpoint : Endpoint)
  | Remove (key : IpAddr)
deriving DecidableEq

/-- True exactly on `Insert` events. -/
def Change.isInsert : Change → Bool
  | .Insert _ _ => true
  | .Remove _ => false

/-- True exactly on `Remove` events. -/
def Change.isRemove : Change → Bool
  | .Insert _ _ => false
  | .Remove _ => true

/-- The keys of the `Insert` events of a stream, in order. -/
def insertedKeys (l : List Change) : List IpAddr :=
  l.filterMap fun c =>
    match c with
    | .Insert k _ => some k
    | .Remove _ => none

/-- The keys of the `Remove` events of a stream, in order. -/
def removedKeys (l : List Change) : List IpAddr :=
  l.filterMap fun c =>
    match c with
    | .Insert _ _ => none
    | .Remove k => some k

/-- The event list of one successful tick, shared verbatim by both loop
iterations (`src/lib.rs` lines 85-103, `src/dynamic_channel.rs` lines
105-111): one `Insert` per element of `new \ old` built through the
template, followed by one `Remove` per element of `old \ new`.  A Rust
`HashSet` is embedded as a duplicate-free list; `difference` becomes a
filter. -/
def tickEvents (t : EndpointTemplate) (old_endpoints new_endpoints : List IpAddr) :
    List Change :=
  ((new_endpoints.filter fun ip => ip ∉ old_endpoints).map
      fun ip => Change.Insert ip (t.build ip))
    ++ ((old_endpoints.filter fun ip => ip ∉ new_endpoints).map
      fun ip => Change.Remove ip)

/-- The status enum of `src/dynamic_channel.rs` (lines 21-25): no
`Stopped` variant exists in this iteration. -/
inductive DCStatus
  | Ok
  | DnsResolutionError (details : String)
deriving DecidableEq

/-- `Status::dns_resolution_error` (`src/dynamic_channel.rs` lines
28-32); the argument is the debug rendering of the resolver error. -/
def DCStatus.dns_resolution_error (e : String) : DCStatus :=
  DCStatus.DnsResolutionError e

/-- `Status::is_dns_resolution_error` (`src/dynamic_channel.rs` lines
34-39). -/
def DCStatus.is_dns_resolution_error : DCStatus → Bool
  | .DnsResolutionError _ => true
  | .Ok => false

/-- The health enum of `src/dynamic_channel.rs` (lines 42-52). -/
inductive Health
  | Ok
  | Undetermined
  | Broken
deriving DecidableEq

/-- The observable state of one `dynamic_channel.rs` loop instance: the
loop-private `old_endpoints` set (a duplicate-free list embedding the
`HashSet`), and the two watch registers. -/
structure DCState where
  old_endpoints : List IpAddr
  status : DCStatus
  endpoints_count : Nat
deriving DecidableEq

/-- Register values at construction (`src/dynamic_channel.rs` lines
66-67): the status watch cell starts at `Status::Ok`, the count cell at
`0`, and the loop-private set starts empty (line 93). -/
def DC.initState : DCState :=
  { old_endpoints := [], status := DCStatus.Ok, endpoints_count := 0 }

/-- One tick of the `dynamic_channel.rs` loop body (lines 100-124),
parameterized by the resolver outcome of `resolve_domain` (`Ok` with
the iterator's addresses, or `Err` with the debug text of the error).
On success the status register is set to `Ok`, the diff events are
emitted, the private set is replaced by the collected (duplicate-free)
resolver output and the count register is set to its size.  On failure
only the status register is touched. -/
def DC.tick (t : EndpointTemplate) (s : DCState) (outcome : Except String (List IpAddr)) :
    DCState × List Change :=
  match outcome with
  | Except.ok ip_addrs =>
    let new_endpoints := ip_addrs.dedup
    ({ old_endpoints := new_endpoints
       status := DCStatus.Ok
       endpoints_count := new_endpoints.length },
     tickEvents t s.old_endpoints new_endpoints)
  | Except.error e =>
    ({ s with status := DCStatus.dns_resolution_error e }, [])

/-- `AutoBalancedChannel::get_health` (`src/dynamic_channel.rs` lines
146-154), as the pure function of the two register values it reads. -/
def DC.get_health (endpoints_count : Nat) (status : DCStatus) : Health :=
  if endpoints_count = 0 then
    Health.Broken
  else if status.is_dns_resolution_error then
    Health.Undetermined
  else
    Health.Ok

/-- What the background task of `src/dynamic_channel.rs` does before
entering the loop (lines 77-91): either the single install-and-return
for a literal-IP host, or entry into the steady-state loop with the
domain to resolve. -/
inductive StartupAction
  | enterLoop (domain : String)
  | installSingle (events : List Change)
deriving DecidableEq

/-- The startup dispatch of the background task
(`src/dynamic_channel.rs` lines 77-91, identical in `src/lib.rs` lines
51-65): match on the template URL's host; a domain enters the loop, a
literal IP is installed once and the task returns.  `none` models the
source's `unwrap()` panic on a host-less URL, which template
construction rules out. -/
def DC.startup (t : EndpointTemplate) : Option StartupAction :=
  match t.url.host with
  | some (Host.domain d) => some (StartupAction.enterLoop d)
  | some (Host.ipv4 a b c d) =>
    some (StartupAction.installSingle
      [Change.Insert (IpAddr.v4 a b c d) (t.build (IpAddr.v4 a b c d))])
  | some (Host.ipv6 v) =>
    some (StartupAction.installSingle
      [Change.Insert (IpAddr.v6 v) (t.build (IpAddr.v6 v))])
  | none => none

/-- The status enum of the crate root `src/lib.rs` (lines 19-24),
including the terminal `Stopped` variant. -/
inductive LibStatus
  | Ok
  | DnsResolutionError (details : String)
  | Stopped
deriving DecidableEq

/-- The state of one `lib.rs` loop instance: the loop-private
`old_endpoints` set, the status register, and whether the task has
returned (this iteration has no count register). -/
structure LibState where
  old_endpoints : List IpAddr
  status : LibStatus
  stopped : Bool
deriving DecidableEq

/-- Register values at construction (`src/lib.rs` line 41) and the
empty private set (line 67); the task is running. -/
def Lib.initState : LibState :=
  { old_endpoints := [], status := LibStatus.Ok, stopped := false }

/-- The status published by the resolver match of a `lib.rs` tick
(lines 70-83). -/
def Lib.tickStatus : Except String (List IpAddr) → LibStatus
  | Except.ok _ => LibStatus.Ok
  | Except.error e => LibStatus.DnsResolutionError e

/-- The `new_endpoints` value of a `lib.rs` tick (lines 70-83): the
collected resolver output on success, a clone of the old set on
failure. -/
def Lib.newEndpoints (old_endpoints : List IpAddr) :
    Except String (List IpAddr) → List IpAddr
  | Except.ok ip_addrs => ip_addrs.dedup
  | Except.error _ => old_endpoints

/-- One tick of the `lib.rs` loop body (lines 69-108).  The sink is
modelled by `accept`: `none` means every send is accepted, `some k`
means the first `k` sends are accepted and any further send fails
because the receiver was dropped.  When a send fails the loop publishes
`Stopped` and returns without replacing `old_endpoints` (lines 86-102);
otherwise it replaces the set and continues.  The third component lists
the status values published during the tick, in order. -/
def Lib.tick (t : EndpointTemplate) (s : LibState) (outcome : Except String (List IpAddr))
    (accept : Option Nat) : LibState × List Change × List LibStatus :=
  let status1 := Lib.tickStatus outcome
  let new_endpoints := Lib.newEndpoints s.old_endpoints outcome
  let events := tickEvents t s.old_endpoints new_endpoints
  match accept with
  | none =>
    ({ old_endpoints := new_endpoints, status := status1, stopped := false },
     events, [status1])
  | some k =>
    if events.length ≤ k then
      ({ old_endpoints := new_endpoints, status := status1, stopped := false },
       events, [status1])
    else
      ({ old_endpoints := s.old_endpoints, status := LibStatus.Stopped, stopped := true },
       events.take k, [status1, LibStatus.Stopped])

/-- A whole run of the `lib.rs` loop over a list of tick inputs (one
resolver outcome and one sink behavior per tick).  Once the task has
returned, remaining inputs produce no events and no register updates;
the results are the final state, the concatenated event stream sent to
the sink, and the concatenated list of published status values. -/
def Lib.run (t : EndpointTemplate) (s : LibState) :
    List (Except String (List IpAddr) × Option Nat) →
      LibState × List Change × List LibStatus
  | [] => (s, [], [])
  | input :: rest =>
    if s.stopped then
      (s, [], [])
    else
      let out := Lib.tick t s input.1 input.2
      let outRest := Lib.run t out.1 rest
      (outRest.1, out.2.1 ++ outRest.2.1, out.2.2 ++ outRest.2.2)

/-- Modelled from the spec: the result of `Url::parse` on
`"http://example.com:50051/foo"` — a domain host, can be a base, and
round-trips through the transport URI type (the source's own unit
tests use this URL). -/
def urlExample : Url :=
  { host := some (Host.domain "example.com")
    cannot_be_a_base := false
    parses_as_uri := true
    rest := "http://_:50051/foo" }

/-- Modelled from the spec: the result of `Url::parse` on
`"http://127.0.0.1:50051/"` — a literal IPv4 host. -/
def urlIp127 : Url :=
  { host := some (Host.ipv4 127 0 0 1)
    cannot_be_a_base := false
    parses_as_uri := true
    rest := "http://_:50051/" }

/-- A template over `urlExample` with every option unset, exactly the
record `EndpointTemplate::new` returns. -/
def blankTemplate : EndpointTemplate :=
  { url := urlExample
    origin := none
    user_agent := none
    timeout := none
    concurrency_limit := none
    rate_limit := none
    buffer_size := none
    init_stream_window_size := none
    init_connection_window_size := none
    tcp_keepalive := none
    tcp_nodelay := none
    http2_keep_alive_interval := none
    http2_keep_alive_timeout := none
    http2_keep_alive_while_idle := none
    connect_timeout := none
    http2_adaptive_window := none }

/-- A template record over `urlIp127`: such a value is expressible as a
raw record even though `EndpointTemplate::new` refuses to produce one. -/
def ipTemplate : EndpointTemplate :=
  { blankTemplate with url := urlIp127 }

lemma insertedKeys_map_insert (f : IpAddr → Endpoint) (l : List IpAddr) :
    insertedKeys (l.map fun ip => Change.Insert ip (f ip)) = l := by
  induction l with
  | nil => rfl
  | cons a l ih => simp only [insertedKeys, List.map_cons, List.filterMap_cons] at *; rw [ih]

lemma insertedKeys_map_remove (l : List IpAddr) :
    insertedKeys (l.map fun ip => Change.Remove ip) = [] := by
  induction l with
  | nil => rfl
  | cons a l ih => simp only [insertedKeys, List.map_cons, List.filterMap_cons] at *; rw [ih]

lemma removedKeys_map_insert (f : IpAddr → Endpoint) (l : List IpAddr) :
    removedKeys (l.map fun ip => Change.Insert ip (f ip)) = [] := by
  induction l with
  | nil => rfl
  | cons a l ih => simp only [removedKeys, List.map_cons, List.filterMap_cons] at *; rw [ih]

lemma removedKeys_map_remove (l : List IpAddr) :
    removedKeys (l.map fun ip => Change.Remove ip) = l := by
  induction l with
  | nil => rfl
  | cons a l ih => simp only [removedKeys, List.map_cons, List.filterMap_cons] at *; rw [ih]

lemma insertedKeys_append (l1 l2 : List Change) :
    insertedKeys (l1 ++ l2) = insertedKeys l1 ++ insertedKeys l2 :=
  List.filterMap_append l1 l2 _

lemma removedKeys_append (l1 l2 : List Change) :
    removedKeys (l1 ++ l2) = removedKeys l1 ++ removedKeys l2 :=
  List.filterMap_append l1 l2 _

lemma insertedKeys_tickEvents (t : EndpointTemplate) (old_endpoints new_endpoints : List IpAddr) :
    insertedKeys (tickEvents t old_endpoints new_endpoints)
      = new_endpoints.filter fun ip => ip ∉ old_endpoints := by
  rw [tickEvents, insertedKeys_append, insertedKeys_map_insert, insertedKeys_map_remove,
    List.append_nil]

lemma removedKeys_tickEvents (t : EndpointTemplate) (old_endpoints new_endpoints : List IpAddr) :
    removedKeys (tickEvents t old_endpoints new_endpoints)
      = old_endpoints.filter fun ip => ip ∉ new_endpoints := by
  rw [tickEvents, removedKeys_append, removedKeys_map_insert, removedKeys_map_remove,
    List.nil_append]

/-- C1: a tick on which the resolver succeeds with IP set `S` sets the
status register to `Ok`, emits `Insert(key, descriptor)` for exactly
the keys in `S` minus the previous known set (descriptor built from the
template), emits `Remove(key)` for exactly the keys of the previous
known set minus `S`, replaces the known-endpoint set with `S`
(duplicates collapsed), and publishes endpoint count `|S|`
(`src/dynamic_channel.rs` lines 100-116). -/
theorem dc_tick_success (t : EndpointTemplate) (s : DCState) (S : List IpAddr)
    (hnd : s.old_endpoints.Nodup) :
    (DC.tick t s (Except.ok S)).1.status = DCStatus.Ok
    ∧ (DC.tick t s (Except.ok S)).1.old_endpoints.toFinset = S.toFinset
    ∧ (DC.tick t s (Except.ok S)).1.endpoints_count = S.toFinset.card
    ∧ (insertedKeys (DC.tick t s (Except.ok S)).2).toFinset
        = S.toFinset \ s.old_endpoints.toFinset
    ∧ (insertedKeys (DC.tick t s (Except.ok S)).2).Nodup
    ∧ (removedKeys (DC.tick t s (Except.ok S)).2).toFinset
        = s.old_endpoints.toFinset \ S.toFinset
    ∧ (removedKeys (DC.tick t s (Except.ok S)).2).Nodup
    ∧ ∀ k ep, Change.Insert k ep ∈ (DC.tick t s (Except.ok S)).2 → ep = t.build k := by
  refine ⟨rfl, ?_, ?_, ?_, ?_, ?_, ?_, ?_⟩
  · show S.dedup.toFinset = S.toFinset
    ext a; simp [List.mem_toFinset, List.mem_dedup]
  · exact (List.card_toFinset S).symm
  · show (insertedKeys (tickEvents t s.old_endpoints S.dedup)).toFinset = _
    rw [insertedKeys_tickEvents]
    ext a; simp [List.mem_toFinset, List.mem_filter, List.mem_dedup]
  · show (insertedKeys (tickEvents t s.old_endpoints S.dedup)).Nodup
    rw [insertedKeys_tickEvents]
    exact (List.nodup_dedup S).filter _
  · show (removedKeys (tickEvents t s.old_endpoints S.dedup)).toFinset = _
    rw [removedKeys_tickEvents]
    ext a; simp [List.mem_toFinset, List.mem_filter, List.mem_dedup]
  · show (removedKeys (tickEvents t s.old_endpoints S.dedup)).Nodup
    rw [removedKeys_tickEvents]
    exact hnd.filter _
  · intro k ep hmem
    show ep = t.build k
    simp only [DC.tick, tickEvents, List.mem_append, List.mem_map] at hmem
    rcases hmem with ⟨ip, _, heq⟩ | ⟨ip, _, heq⟩
    · cases heq; rfl
    · cases heq

/-- Witness for C1 at a concrete input: previous known set `{10.0.0.1}`,
resolver output `[10.0.0.2, 10.0.0.2]`. -/
theorem dc_tick_success_witness :
    ([IpAddr.v4 10 0 0 1] : List IpAddr).Nodup
    ∧ ((DC.tick blankTemplate
        { old_endpoints := [IpAddr.v4 10 0 0 1], status := DCStatus.Ok, endpoints_count := 1 }
        (Except.ok [IpAddr.v4 10 0 0 2, IpAddr.v4 10 0 0 2])).1.endpoints_count
      = ([IpAddr.v4 10 0 0 2, IpAddr.v4 10 0 0 2] : List IpAddr).toFinset.card) :=
  ⟨by decide,
   (dc_tick_success blankTemplate
      { old_endpoints := [IpAddr.v4 10 0 0 1], status := DCStatus.Ok, endpoints_count := 1 }
      [IpAddr.v4 10 0 0 2, IpAddr.v4 10 0 0 2] (by decide)).2.2.1⟩

/-- C2: a tick on which the resolver fails with error `e` sets the
status register to `DnsResolutionError` carrying the human-readable
rendering of `e`, leaves the known-endpoint set unchanged, emits no
sink event, and leaves the published endpoint count unchanged
(`src/dynamic_channel.rs` lines 117-123). -/
theorem dc_tick_failure (t : EndpointTemplate) (s : DCState) (e : String) :
    (DC.tick t s (Except.error e)).1.status = DCStatus.dns_resolution_error e
    ∧ (DC.tick t s (Except.error e)).1.old_endpoints = s.old_endpoints
    ∧ (DC.tick t s (Except.error e)).1.endpoints_count = s.endpoints_count
    ∧ (DC.tick t s (Except.error e)).2 = [] :=
  ⟨rfl, rfl, rfl, rfl⟩

/-- C4: `get_health` is a pure function of the current endpoint count
and status: count 0 gives `Broken` regardless of status, a positive
count with `DnsResolutionError` gives `Undetermined`, and a positive
count with `Ok` gives `Ok` (`src/dynamic_channel.rs` lines 146-154). -/
theorem dc_get_health_formula (c : Nat) (st : DCStatus) :
    (c = 0 → DC.get_health c st = Health.Broken)
    ∧ (0 < c → ∀ d, st = DCStatus.DnsResolutionError d →
        DC.get_health c st = Health.Undetermined)
    ∧ (0 < c → st = DCStatus.Ok → DC.get_health c st = Health.Ok) := by
  refine ⟨fun h => ?_, fun hc d hd => ?_, fun hc hok => ?_⟩
  · simp [DC.get_health, h]
  · subst hd
    simp [DC.get_health, Nat.pos_iff_ne_zero.mp hc, DCStatus.is_dns_resolution_error]
  · subst hok
    simp [DC.get_health, Nat.pos_iff_ne_zero.mp hc, DCStatus.is_dns_resolution_error]

/-- Witness for C4 at concrete register values. -/
theorem dc_get_health_formula_witness :
    DC.get_health 0 DCStatus.Ok = Health.Broken
    ∧ DC.get_health 2 (DCStatus.DnsResolutionError "kaput") = Health.Undetermined
    ∧ DC.get_health 2 DCStatus.Ok = Health.Ok :=
  ⟨(dc_get_health_formula 0 DCStatus.Ok).1 rfl,
   (dc_get_health_formula 2 (DCStatus.DnsResolutionError "kaput")).2.1 (by decide) "kaput" rfl,
   (dc_get_health_formula 2 DCStatus.Ok).2.2 (by decide) rfl⟩

/-- C8: if a tick resolves to `S` and the next tick resolves to `S`
again, the second tick emits zero `Insert` and zero `Remove` events
(`src/dynamic_channel.rs` lines 105-115). -/
theorem dc_tick_idempotent (t : EndpointTemplate) (s : DCState) (S : List IpAddr) :
    (DC.tick t (DC.tick t s (Except.ok S)).1 (Except.ok S)).2 = [] := by
  show tickEvents t S.dedup S.dedup = []
  simp [tickEvents, List.filter_eq_nil_iff, List.dedup_idem, List.mem_dedup]

/-- C9: within a single successful tick the emitted stream is the list
of that tick's `Insert` events followed by the list of that tick's
`Remove` events: every `Insert` precedes every `Remove`
(`src/dynamic_channel.rs` lines 105-111, `src/lib.rs` lines 85-103). -/
theorem dc_tick_inserts_before_removes (t : EndpointTemplate) (s : DCState) (S : List IpAddr) :
    ∃ ins rem, (DC.tick t s (Except.ok S)).2 = ins ++ rem
      ∧ (∀ e ∈ ins, e.isInsert = true) ∧ (∀ e ∈ rem, e.isRemove = true) := by
  refine ⟨(S.dedup.filter fun ip => ip ∉ s.old_endpoints).map
            (fun ip => Change.Insert ip (t.build ip)),
          (s.old_endpoints.filter fun ip => ip ∉ S.dedup).map
            (fun ip => Change.Remove ip),
          rfl, ?_, ?_⟩ <;>
    · intro e he
      simp only [List.mem_map] at he
      obtain ⟨ip, _, rfl⟩ := he
      rfl

/-- C10: immediately after construction, before the background task has
published anything, the status register reads `Ok` and the health
derived from the two registers is `Broken`, because the registers are
initialized to `Ok` and `0` (`src/dynamic_channel.rs` lines 66-67,
146-154). -/
theorem dc_initial_status_ok_health_broken :
    DC.initState.status = DCStatus.Ok
    ∧ DC.get_health DC.initState.endpoints_count DC.initState.status = Health.Broken :=
  ⟨rfl, rfl⟩

/-- Modelled from the spec: a URL with a domain host that cannot be a
base, exercising the `Inconvertible` branch. -/
def urlNoBase : Url :=
  { host := some (Host.domain "example.com")
    cannot_be_a_base := true
    parses_as_uri := true
    rest := "unusual" }

/-- C5: template construction fails with `HostMissing` exactly when the
URL has no host, with `AlreadyIpAddress` exactly when the host is a
literal IP, with `Inconvertible` exactly on the remaining URLs that
cannot be a base or do not parse as the transport URI type, returns a
template otherwise, and in particular rejects
`http://127.0.0.1:50051/` with `AlreadyIpAddress`
(`src/endpoint_template.rs` lines 30-56). -/
theorem template_new_cases (u : Url) :
    (EndpointTemplate.new u = Except.error Error.HostMissing ↔ u.host = none)
    ∧ (EndpointTemplate.new u = Except.error Error.AlreadyIpAddress
        ↔ ∃ h, u.host = some h ∧ h.isIp = true)
    ∧ (EndpointTemplate.new u = Except.error Error.Inconvertible
        → u.cannot_be_a_base = true ∨ u.parses_as_uri = false)
    ∧ ((∃ d, u.host = some (Host.domain d))
        → u.cannot_be_a_base = true ∨ u.parses_as_uri = false
        → EndpointTemplate.new u = Except.error Error.Inconvertible)
    ∧ ((∃ d, u.host = some (Host.domain d)) → u.cannot_be_a_base = false
        → u.parses_as_uri = true
        → ∃ tpl, EndpointTemplate.new u = Except.ok tpl ∧ tpl.url = u)
    ∧ EndpointTemplate.new urlIp127 = Except.error Error.AlreadyIpAddress := by
  refine ⟨?_, ?_, ?_, ?_, ?_, rfl⟩ <;>
    · rcases u with ⟨host, cb, pu, rest⟩
      rcases host with _ | h
      · simp [EndpointTemplate.new]
      · rcases h with d | ⟨a, b, c, d⟩ | v <;> cases cb <;> cases pu <;>
          simp [EndpointTemplate.new, Uri.from_str, Host.isIp]

/-- Witness for C5 at concrete URLs: a cannot-be-a-base URL is
`Inconvertible`, a well-formed domain URL yields a template. -/
theorem template_new_cases_witness :
    EndpointTemplate.new urlNoBase = Except.error Error.Inconvertible
    ∧ (∃ tpl, EndpointTemplate.new urlExample = Except.ok tpl ∧ tpl.url = urlExample) :=
  ⟨(template_new_cases urlNoBase).2.2.2.1 ⟨"example.com", rfl⟩ (Or.inl rfl),
   (template_new_cases urlExample).2.2.2.2.1 ⟨"example.com", rfl⟩ rfl rfl⟩

/-- C6: for a template whose URL host is a literal IP, the background
task installs exactly that one endpoint and returns without entering
the loop, so it never resolves, never publishes `ResolutionError`, and
emits nothing further (`src/dynamic_channel.rs` lines 77-91); and this
path is unreachable through `EndpointTemplate::new`, which only ever
produces templates with domain hosts (`src/endpoint_template.rs` lines
33-40). -/
theorem startup_ip_host_installs_single :
    (∀ (t : EndpointTemplate) (h : Host) (ip : IpAddr),
       t.url.host = some h → h.ipOf = some ip →
       DC.startup t = some (StartupAction.installSingle [Change.Insert ip (t.build ip)]))
    ∧ (∀ (u : Url) (tpl : EndpointTemplate),
       EndpointTemplate.new u = Except.ok tpl → ∃ d, tpl.url.host = some (Host.domain d)) := by
  constructor
  · intro t h ip hh hip
    rcases h with d | ⟨a, b, c, d⟩ | v
    · simp [Host.ipOf] at hip
    · simp only [Host.ipOf, Option.some.injEq] at hip
      subst hip
      simp [DC.startup, hh]
    · simp only [Host.ipOf, Option.some.injEq] at hip
      subst hip
      simp [DC.startup, hh]
  · intro u tpl hok
    rcases hu : u.host with _ | h
    · simp [EndpointTemplate.new, hu] at hok
    · rcases h with d | ⟨a, b, c, d⟩ | v
      · refine ⟨d, ?_⟩
        rcases hcb : u.cannot_be_a_base <;> rcases hpu : u.parses_as_uri <;>
          simp [EndpointTemplate.new, hu, hcb, hpu, Uri.from_str] at hok
        rw [← hok]
        exact hu
      · simp [EndpointTemplate.new, hu] at hok
      · simp [EndpointTemplate.new, hu] at hok

/-- Witness for C6: the raw record `ipTemplate` over
`http://127.0.0.1:50051/` takes the single-install path, and the
template constructed from `http://example.com:50051/foo` has a domain
host. -/
theorem startup_ip_host_installs_single_witness :
    DC.startup ipTemplate
      = some (StartupAction.installSingle
          [Change.Insert (IpAddr.v4 127 0 0 1) (ipTemplate.build (IpAddr.v4 127 0 0 1))])
    ∧ (∃ d, blankTemplate.url.host = some (Host.domain d)) :=
  ⟨startup_ip_host_installs_single.1 ipTemplate (Host.ipv4 127 0 0 1) (IpAddr.v4 127 0 0 1)
     rfl rfl,
   startup_ip_host_installs_single.2 urlExample blankTemplate rfl⟩

lemma lib_run_stopped (t : EndpointTemplate) (s : LibState)
    (inputs : List (Except String (List IpAddr) × Option Nat)) (h : s.stopped = true) :
    Lib.run t s inputs = (s, [], []) := by
  cases inputs with
  | nil => rfl
  | cons input rest => simp [Lib.run, h]

/-- C3: when a send to the sink fails because the receiver was dropped
(the sink accepts only `k` of the tick's events), the loop publishes
`Ok`/`DnsResolutionError` and then `Stopped`, keeps its previous known
set, and returns: whatever inputs follow, no further event is sent, no
further status is published, and no further resolver outcome is
consumed (`src/lib.rs` lines 85-103). -/
theorem lib_sink_closed_stops (t : EndpointTemplate) (s : LibState)
    (outcome : Except String (List IpAddr)) (k : Nat)
    (rest : List (Except String (List IpAddr) × Option Nat))
    (hs : s.stopped = false)
    (hfail : k <
      (tickEvents t s.old_endpoints (Lib.newEndpoints s.old_endpoints outcome)).length) :
    Lib.run t s ((outcome, some k) :: rest)
      = ({ old_endpoints := s.old_endpoints, status := LibStatus.Stopped, stopped := true },
         (tickEvents t s.old_endpoints (Lib.newEndpoints s.old_endpoints outcome)).take k,
         [Lib.tickStatus outcome, LibStatus.Stopped]) := by
  have hnotle :
      ¬ (tickEvents t s.old_endpoints (Lib.newEndpoints s.old_endpoints outcome)).length ≤ k :=
    Nat.not_le.mpr hfail
  simp only [Lib.run, hs, Bool.false_eq_true, if_false, Lib.tick, hnotle, if_neg]
  rw [lib_run_stopped t _ rest rfl]
  simp

/-- Witness for C3: from the initial state, resolving to `{10.0.0.1}`
against a sink that accepts nothing stops the loop; a further tick
input is ignored. -/
theorem lib_sink_closed_stops_witness :
    Lib.initState.stopped = false
    ∧ 0 < (tickEvents blankTemplate Lib.initState.old_endpoints
        (Lib.newEndpoints Lib.initState.old_endpoints
          (Except.ok [IpAddr.v4 10 0 0 1]))).length
    ∧ Lib.run blankTemplate Lib.initState
        ((Except.ok [IpAddr.v4 10 0 0 1], some 0)
          :: [(Except.ok [IpAddr.v4 10 0 0 1], none)])
      = ({ old_endpoints := Lib.initState.old_endpoints, status := LibStatus.Stopped,
           stopped := true },
         (tickEvents blankTemplate Lib.initState.old_endpoints
           (Lib.newEndpoints Lib.initState.old_endpoints
             (Except.ok [IpAddr.v4 10 0 0 1]))).take 0,
         [Lib.tickStatus (Except.ok [IpAddr.v4 10 0 0 1]), LibStatus.Stopped]) :=
  ⟨rfl, by decide,
   lib_sink_closed_stops blankTemplate Lib.initState (Except.ok [IpAddr.v4 10 0 0 1]) 0
     [(Except.ok [IpAddr.v4 10 0 0 1], none)] rfl (by decide)⟩

/-- The installed-set update performed by one sink event. -/
def applyChange (inst : Finset IpAddr) : Change → Finset IpAddr
  | Change.Insert key _ => insert key inst
  | Change.Remove key => inst.erase key

/-- The installed-set update performed by a stream of sink events. -/
def applyChanges (inst : Finset IpAddr) (l : List Change) : Finset IpAddr :=
  l.foldl applyChange inst

/-- The admissibility of one sink event against the currently installed
set: an `Insert` requires its key absent, a `Remove` requires its key
present. -/
def changeOk (inst : Finset IpAddr) : Change → Prop
  | Change.Insert key _ => key ∉ inst
  | Change.Remove key => key ∈ inst

/-- The insert/remove discipline of a sink event stream: every `Insert`
is of a key not currently installed and every `Remove` is of a key
currently installed, tracking the installed set along the stream.  In
particular no key receives two `Insert` events without an intervening
`Remove` for that key. -/
def sinkConsistent (inst : Finset IpAddr) : List Change → Prop
  | [] => True
  | c :: rest => changeOk inst c ∧ sinkConsistent (applyChange inst c) rest

lemma sinkConsistent_nil (inst : Finset IpAddr) : sinkConsistent inst [] :=
  trivial

lemma sinkConsistent_cons (inst : Finset IpAddr) (c : Change) (rest : List Change) :
    sinkConsistent inst (c :: rest)
      ↔ changeOk inst c ∧ sinkConsistent (applyChange inst c) rest :=
  Iff.rfl

lemma applyChanges_cons (inst : Finset IpAddr) (c : Change) (l : List Change) :
    applyChanges inst (c :: l) = applyChanges (applyChange inst c) l :=
  rfl

lemma applyChanges_append (l1 l2 : List Change) (inst : Finset IpAddr) :
    applyChanges inst (l1 ++ l2) = applyChanges (applyChanges inst l1) l2 :=
  List.foldl_append _ _ _ _

lemma sinkConsistent_append (l1 l2 : List Change) :
    ∀ inst, sinkConsistent inst (l1 ++ l2)
      ↔ sinkConsistent inst l1 ∧ sinkConsistent (applyChanges inst l1) l2 := by
  induction l1 with
  | nil =>
    intro inst
    rw [List.nil_append]
    show sinkConsistent inst l2 ↔ True ∧ sinkConsistent inst l2
    rw [true_and]
  | cons c l1 ih =>
    intro inst
    rw [List.cons_append, sinkConsistent_cons, sinkConsistent_cons, ih (applyChange inst c),
      applyChanges_cons, and_assoc]

lemma sinkConsistent_take :
    ∀ (l : List Change) (k : Nat) (inst : Finset IpAddr),
      sinkConsistent inst l → sinkConsistent inst (l.take k) := by
  intro l
  induction l with
  | nil => intro k inst _; rw [List.take_nil]; exact trivial
  | cons c l ih =>
    intro k inst h
    cases k with
    | zero => exact trivial
    | succ k => exact ⟨h.1, ih k _ h.2⟩

lemma sinkConsistent_insertList (f : IpAddr → Endpoint) :
    ∀ (ins : List IpAddr) (inst : Finset IpAddr), ins.Nodup → (∀ a ∈ ins, a ∉ inst) →
      sinkConsistent inst (ins.map fun ip => Change.Insert ip (f ip))
      ∧ applyChanges inst (ins.map fun ip => Change.Insert ip (f ip))
          = inst ∪ ins.toFinset := by
  intro ins
  induction ins with
  | nil => intro inst _ _; exact ⟨trivial, by simp [applyChanges]⟩
  | cons a ins ih =>
    intro inst hnd hmem
    have hna : a ∉ ins := (List.nodup_cons.mp hnd).1
    have hmem' : ∀ b ∈ ins, b ∉ insert a inst := by
      intro b hb
      simp only [Finset.mem_insert, not_or]
      refine ⟨?_, hmem b (List.mem_cons_of_mem a hb)⟩
      rintro rfl
      exact hna hb
    obtain ⟨hc, happ⟩ := ih (insert a inst) (List.nodup_cons.mp hnd).2 hmem'
    refine ⟨⟨hmem a (List.mem_cons_self a ins), hc⟩, ?_⟩
    show applyChanges (insert a inst) _ = _
    rw [happ]
    ext x
    simp only [Finset.mem_union, Finset.mem_insert, List.toFinset_cons, List.mem_toFinset]
    tauto

lemma sinkConsistent_removeList :
    ∀ (rem : List IpAddr) (inst : Finset IpAddr), rem.Nodup → (∀ a ∈ rem, a ∈ inst) →
      sinkConsistent inst (rem.map fun ip => Change.Remove ip)
      ∧ applyChanges inst (rem.map fun ip => Change.Remove ip)
          = inst \ rem.toFinset := by
  intro rem
  induction rem with
  | nil => intro inst _ _; exact ⟨trivial, by simp [applyChanges]⟩
  | cons a rem ih =>
    intro inst hnd hmem
    have hna : a ∉ rem := (List.nodup_cons.mp hnd).1
    have hmem' : ∀ b ∈ rem, b ∈ inst.erase a := by
      intro b hb
      rw [Finset.mem_erase]
      refine ⟨?_, hmem b (List.mem_cons_of_mem a hb)⟩
      rintro rfl
      exact hna hb
    obtain ⟨hc, happ⟩ := ih (inst.erase a) (List.nodup_cons.mp hnd).2 hmem'
    refine ⟨⟨hmem a (List.mem_cons_self a rem), hc⟩, ?_⟩
    show applyChanges (inst.erase a) _ = _
    rw [happ]
    ext x
    simp only [Finset.mem_sdiff, Finset.mem_erase, List.toFinset_cons, List.mem_toFinset,
      Finset.mem_insert, not_or]
    tauto

lemma tickEvents_consistent (t : EndpointTemplate) (old_endpoints new_endpoints : List IpAddr)
    (hold : old_endpoints.Nodup) (hnew : new_endpoints.Nodup) :
    sinkConsistent old_endpoints.toFinset (tickEvents t old_endpoints new_endpoints)
    ∧ applyChanges old_endpoints.toFinset (tickEvents t old_endpoints new_endpoints)
        = new_endpoints.toFinset := by
  obtain ⟨hc1, ha1⟩ :=
    sinkConsistent_insertList (t.build) (new_endpoints.filter fun ip => ip ∉ old_endpoints)
      old_endpoints.toFinset (hnew.filter _)
      (by intro a ha
          simp only [List.mem_filter, decide_not, Bool.not_eq_eq_eq_not, Bool.not_true,
            decide_eq_false_iff_not] at ha
          simpa [List.mem_toFinset] using ha.2)
  obtain ⟨hc2, ha2⟩ :=
    sinkConsistent_removeList (old_endpoints.filter fun ip => ip ∉ new_endpoints)
      (applyChanges old_endpoints.toFinset
        ((new_endpoints.filter fun ip => ip ∉ old_endpoints).map
          fun ip => Change.Insert ip (t.build ip)))
      (hold.filter _)
      (by intro a ha
          simp only [List.mem_filter] at ha
          rw [ha1]
          simp [List.mem_toFinset, ha.1])
  constructor
  · rw [tickEvents, sinkConsistent_append]
    exact ⟨hc1, hc2⟩
  · rw [tickEvents, applyChanges_append, ha2, ha1]
    ext x
    simp only [Finset.mem_sdiff, Finset.mem_union, List.mem_toFinset, List.mem_filter,
      decide_not, Bool.not_eq_eq_eq_not, Bool.not_true, decide_eq_false_iff_not]
    tauto

lemma lib_run_consistent (t : EndpointTemplate) :
    ∀ (inputs : List (Except String (List IpAddr) × Option Nat)) (s : LibState),
      s.old_endpoints.Nodup →
      sinkConsistent s.old_endpoints.toFinset (Lib.run t s inputs).2.1 := by
  intro inputs
  induction inputs with
  | nil => intro s _; trivial
  | cons input rest ih =>
    intro s hnd
    rcases input with ⟨outcome, accept⟩
    by_cases hs : s.stopped = true
    · simp only [Lib.run, hs, if_true]
      trivial
    · have hnewnd : (Lib.newEndpoints s.old_endpoints outcome).Nodup := by
        cases outcome with
        | ok l => exact l.nodup_dedup
        | error e => exact hnd
      have htick := tickEvents_consistent t s.old_endpoints
        (Lib.newEndpoints s.old_endpoints outcome) hnd hnewnd
      have hnewnd' :
          (Lib.newEndpoints s.old_endpoints outcome).toFinset
            = applyChanges s.old_endpoints.toFinset
                (tickEvents t s.old_endpoints (Lib.newEndpoints s.old_endpoints outcome)) :=
        htick.2.symm
      rcases accept with _ | k
      · simp only [Lib.run, hs, Bool.false_eq_true, if_false, Lib.tick]
        rw [sinkConsistent_append]
        refine ⟨htick.1, ?_⟩
        rw [← hnewnd']
        exact ih { old_endpoints := Lib.newEndpoints s.old_endpoints outcome,
                   status := Lib.tickStatus outcome, stopped := false } hnewnd
      · simp only [Lib.run, hs, Bool.false_eq_true, if_false, Lib.tick]
        by_cases hk :
            (tickEvents t s.old_endpoints (Lib.newEndpoints s.old_endpoints outcome)).length
              ≤ k
        · simp only [hk, if_true]
          rw [sinkConsistent_append]
          refine ⟨htick.1, ?_⟩
          rw [← hnewnd']
          exact ih { old_endpoints := Lib.newEndpoints s.old_endpoints outcome,
                     status := Lib.tickStatus outcome, stopped := false } hnewnd
        · simp only [hk, if_false]
          rw [lib_run_stopped t _ rest rfl]
          rw [List.append_nil]
          exact sinkConsistent_take _ k _ htick.1

/-- C7: over every run of the loop (any resolver outcomes, any sink
behavior), the event stream sent to the sink satisfies the
insert/remove discipline from the empty installed set: a key is only
inserted when absent and only removed when present, so no key receives
two `Insert` events without an intervening `Remove` (`src/lib.rs`
lines 85-105). -/
theorem lib_run_insert_remove_discipline (t : EndpointTemplate)
    (inputs : List (Except String (List IpAddr) × Option Nat)) :
    sinkConsistent Lib.initState.old_endpoints.toFinset
      (Lib.run t Lib.initState inputs).2.1 :=
  lib_run_consistent t inputs Lib.initState List.nodup_nil

end TonicDynamicChannel
